import Mathlib

/-!
Verification development for the conversational-agent repository
(`langgraph_agent_workflow.py` and `api/index.py`).

The Python pipeline is shallowly embedded: every external effect (the
Gemini completion call, the MCP tool-server transport, the Pinecone/RAG
stack, environment configuration) is an explicit input, so each Python
function becomes a total Lean function of the user message plus the
outcomes of its external calls.  JSON values are modelled by the
inductive `JValue`; `json.dumps` by `pyJsonDumps` and `json.loads` by
`jsonLoads`, a fuel-driven parser.

Modelling notes (documented divergences, none observable by the claims):
* JSON numerals are modelled as integers; a document containing a
  fractional or exponent numeral is treated as unparseable.
* `json.dumps` is modelled in its compact form (Python's `indent=2`
  argument only inserts inter-token whitespace, which `json.loads`
  ignores) and escapes only quotes, backslashes and control characters.
* Exception *message texts* coming from the Python runtime (e.g. the
  wording of a `JSONDecodeError`) are modelled by fixed descriptive
  strings; the claims only inspect which branch is taken, and the
  user-facing message literals of the repository are modelled verbatim.
-/

/-- A Python/JSON value: the data that flows between the workflow nodes,
the MCP tool gateway and the LLM-output parsers. Objects are ordered
association lists, mirroring Python dict insertion order. -/
inductive JValue where
  | null : JValue
  | bool : Bool → JValue
  | num : Int → JValue
  | str : String → JValue
  | arr : List JValue → JValue
  | obj : List (String × JValue) → JValue
deriving Repr

/-- Python truthiness (`if x:`) on JSON-shaped values. -/
def pyTruthy : JValue → Bool
  | .null => false
  | .bool b => b
  | .num n => n ≠ 0
  | .str s => s ≠ ""
  | .arr xs => !xs.isEmpty
  | .obj kvs => !kvs.isEmpty

/-- Key lookup in an object association list (`dict.__contains__` / `dict.get`). -/
def jLookup (kvs : List (String × JValue)) (k : String) : Option JValue :=
  match kvs with
  | [] => none
  | (k0, v0) :: rest => if k0 = k then some v0 else jLookup rest k

/-- `k in d` for a dict. -/
def jHasKey (kvs : List (String × JValue)) (k : String) : Bool :=
  (jLookup kvs k).isSome

/-- `d.get(k, default)`. -/
def jGetD (kvs : List (String × JValue)) (k : String) (d : JValue) : JValue :=
  (jLookup kvs k).getD d

/-- Python dict write `d[k] = v`: replace in place if the key exists,
append otherwise (insertion order preserved). -/
def insertKV (kvs : List (String × JValue)) (k : String) (v : JValue) :
    List (String × JValue) :=
  match kvs with
  | [] => [(k, v)]
  | (k0, v0) :: rest =>
      if k0 = k then (k0, v) :: rest else (k0, v0) :: insertKV rest k v

/-- Python `dict.setdefault(k, v)`: insert only when the key is absent
(new keys go to the end, existing values are kept). -/
def pySetdefault (kvs : List (String × JValue)) (k : String) (v : JValue) :
    List (String × JValue) :=
  if jHasKey kvs k then kvs else kvs ++ [(k, v)]

/- ===== json.dumps ===== -/

/-- Hexadecimal digit for string escapes. -/
def hexDigit (n : Nat) : Char :=
  if n < 10 then Char.ofNat ('0'.toNat + n) else Char.ofNat ('a'.toNat + n - 10)

/-- Escape one character of a JSON string literal. -/
def escChar (c : Char) : List Char :=
  if c = '"' then ['\\', '"']
  else if c = '\\' then ['\\', '\\']
  else if c.toNat < 0x20 then
    ['\\', 'u', '0', '0', hexDigit (c.toNat / 16), hexDigit (c.toNat % 16)]
  else [c]

/-- Render a JSON string literal, quotes included. -/
def renderStrLit (s : String) : List Char :=
  '"' :: (s.toList.map escChar).flatten ++ ['"']

mutual

/-- Serialize a `JValue` to JSON text (the model of `json.dumps`). -/
def renderJ : JValue → List Char
  | .null => "null".toList
  | .bool b => if b then "true".toList else "false".toList
  | .num n => (toString n).toList
  | .str s => renderStrLit s
  | .arr xs => '[' :: renderArr xs ++ [']']
  | .obj kvs => '{' :: renderObj kvs ++ ['}']

/-- Serialize array elements, comma separated. -/
def renderArr : List JValue → List Char
  | [] => []
  | [x] => renderJ x
  | x :: y :: xs => renderJ x ++ ',' :: renderArr (y :: xs)

/-- Serialize object members, comma separated. -/
def renderObj : List (String × JValue) → List Char
  | [] => []
  | [(k, v)] => renderStrLit k ++ ':' :: renderJ v
  | (k, v) :: m :: kvs => renderStrLit k ++ ':' :: renderJ v ++ ',' :: renderObj (m :: kvs)

end

/-- The model of `json.dumps`. -/
def pyJsonDumps (v : JValue) : String := String.mk (renderJ v)

/- ===== json.loads ===== -/

/-- JSON insignificant whitespace. -/
def jWs (c : Char) : Bool := c = ' ' || c = '\t' || c = '\n' || c = '\r'

/-- Skip insignificant whitespace. -/
def skipWs (cs : List Char) : List Char := cs.dropWhile jWs

/-- Value of one hexadecimal digit (by code point range). -/
def hexVal (c : Char) : Option Nat :=
  let n := c.toNat
  if 48 ≤ n ∧ n ≤ 57 then some (n - 48)
  else if 97 ≤ n ∧ n ≤ 102 then some (n - 87)
  else if 65 ≤ n ∧ n ≤ 70 then some (n - 55)
  else none

/-- Value of a 4-digit hexadecimal escape. -/
def hex4 (a b c d : Char) : Option Nat :=
  match hexVal a, hexVal b, hexVal c, hexVal d with
  | some x, some y, some z, some w => some (x * 4096 + y * 256 + z * 16 + w)
  | _, _, _, _ => none

/-- Decode a single-character escape. -/
def escDecode (c : Char) : Option Char :=
  if c = '"' then some '"'
  else if c = '\\' then some '\\'
  else if c = '/' then some '/'
  else if c = 'b' then some (Char.ofNat 8)
  else if c = 'f' then some (Char.ofNat 12)
  else if c = 'n' then some '\n'
  else if c = 'r' then some '\r'
  else if c = 't' then some '\t'
  else none

/-- Parse the body of a JSON string literal (after the opening quote);
returns the decoded characters and the remainder after the closing
quote. Strict mode: raw control characters are rejected, `\uXXXX`
surrogate pairs are combined. -/
def parseStrBody : List Char → Option (List Char × List Char)
  | [] => none
  | '"' :: rest => some ([], rest)
  | '\\' :: 'u' :: a :: b :: c :: d :: rest2 =>
      match hex4 a b c d with
      | none => none
      | some n =>
        if 0xD800 ≤ n ∧ n ≤ 0xDBFF then
          match rest2 with
          | '\\' :: 'u' :: e :: f :: g :: h :: rest3 =>
              match hex4 e f g h with
              | none => none
              | some m =>
                if 0xDC00 ≤ m ∧ m ≤ 0xDFFF then
                  match parseStrBody rest3 with
                  | some (cs, r) =>
                      some (Char.ofNat (0x10000 + (n - 0xD800) * 0x400 + (m - 0xDC00)) :: cs, r)
                  | none => none
                else none
          | _ => none
        else if 0xDC00 ≤ n ∧ n ≤ 0xDFFF then none
        else
          match parseStrBody rest2 with
          | some (cs, r) => some (Char.ofNat n :: cs, r)
          | none => none
  | '\\' :: e :: rest2 =>
      match escDecode e with
      | none => none
      | some c =>
        match parseStrBody rest2 with
        | some (cs, r) => some (c :: cs, r)
        | none => none
  | '\\' :: [] => none
  | c :: rest =>
      if c.toNat < 0x20 then none
      else
        match parseStrBody rest with
        | some (cs, r) => some (c :: cs, r)
        | none => none

/-- Parse an unsigned JSON integer numeral (no leading zeros). Numerals
with a fractional or exponent part are outside the model and fail. -/
def parseNatTok (cs1 : List Char) : Option (Nat × List Char) :=
  match cs1 with
  | [] => none
  | c :: _ =>
    if c.isDigit then
      let ds := cs1.takeWhile Char.isDigit
      let rest := cs1.dropWhile Char.isDigit
      if ds.length > 1 ∧ ds.head? = some '0' then none
      else
        match rest with
        | '.' :: _ => none
        | 'e' :: _ => none
        | 'E' :: _ => none
        | _ =>
          some (ds.foldl (fun a c => a * 10 + (c.toNat - '0'.toNat)) 0, rest)
    else none

/-- Parse a JSON integer numeral with optional leading minus. -/
def parseNumTok (cs : List Char) : Option (Int × List Char) :=
  match cs with
  | '-' :: r =>
      (match parseNatTok r with
       | some (n, rest) => some (-(n : Int), rest)
       | none => none)
  | _ =>
      (match parseNatTok cs with
       | some (n, rest) => some ((n : Int), rest)
       | none => none)

mutual

/-- Fuel-driven JSON value parser. -/
def parseVal : Nat → List Char → Option (JValue × List Char)
  | 0, _ => none
  | Nat.succ fuel, cs =>
    match skipWs cs with
    | '{' :: rest =>
        (match skipWs rest with
         | '}' :: rest2 => some (.obj [], rest2)
         | cs2 =>
            match parseMembers fuel cs2 [] with
            | some (kvs, rest2) => some (.obj kvs, rest2)
            | none => none)
    | '[' :: rest =>
        (match skipWs rest with
         | ']' :: rest2 => some (.arr [], rest2)
         | cs2 =>
            match parseElems fuel cs2 with
            | some (xs, rest2) => some (.arr xs, rest2)
            | none => none)
    | '"' :: rest =>
        (match parseStrBody rest with
         | some (content, rest2) => some (.str (String.mk content), rest2)
         | none => none)
    | 't' :: 'r' :: 'u' :: 'e' :: rest => some (.bool true, rest)
    | 'f' :: 'a' :: 'l' :: 's' :: 'e' :: rest => some (.bool false, rest)
    | 'n' :: 'u' :: 'l' :: 'l' :: rest => some (.null, rest)
    | cs2 =>
        (match parseNumTok cs2 with
         | some (n, rest) => some (.num n, rest)
         | none => none)

/-- Parse object members after the opening brace (non-empty case);
duplicate keys overwrite in place, as in Python's dict. -/
def parseMembers : Nat → List Char → List (String × JValue) →
    Option (List (String × JValue) × List Char)
  | 0, _, _ => none
  | Nat.succ fuel, cs, acc =>
    match skipWs cs with
    | '"' :: rest =>
      (match parseStrBody rest with
       | some (kcs, rest2) =>
         (match skipWs rest2 with
          | ':' :: rest3 =>
            (match parseVal fuel rest3 with
             | some (v, rest4) =>
               let acc2 := insertKV acc (String.mk kcs) v
               (match skipWs rest4 with
                | ',' :: rest5 => parseMembers fuel rest5 acc2
                | '}' :: rest5 => some (acc2, rest5)
                | _ => none)
             | none => none)
          | _ => none)
       | none => none)
    | _ => none

/-- Parse array elements after the opening bracket (non-empty case). -/
def parseElems : Nat → List Char → Option (List JValue × List Char)
  | 0, _ => none
  | Nat.succ fuel, cs =>
    match parseVal fuel cs with
    | some (v, rest) =>
      (match skipWs rest with
       | ',' :: rest2 =>
          (match parseElems fuel rest2 with
           | some (xs, rest3) => some (v :: xs, rest3)
           | none => none)
       | ']' :: rest2 => some ([v], rest2)
       | _ => none)
    | none => none

end

/-- The model of `json.loads`: parse a complete document, allowing
trailing whitespace only. -/
def jsonLoads (s : String) : Option JValue :=
  let cs := s.toList
  match parseVal (2 * cs.length + 2) cs with
  | some (v, rest) => if (skipWs rest).isEmpty then some v else none
  | none => none

example : jsonLoads "" = none := rfl
example : jsonLoads (pyJsonDumps (.obj [("a", .num 1)])) = some (.obj [("a", .num 1)]) := rfl

/- ===== Python string helpers ===== -/

/-- Substring containment over char lists (`needle in hay` for Python strings). -/
def charsContain (hay needle : List Char) : Bool :=
  needle.isPrefixOf hay ||
    match hay with
    | [] => false
    | _ :: t => charsContain t needle

/-- Python `needle in hay` for strings. -/
def strContains (hay needle : String) : Bool :=
  charsContain hay.toList needle.toList

/-- Python `s.lower()` (modelled as per-character ASCII lowercasing;
the repository's keyword sets are all ASCII). -/
def pyLower (s : String) : String := String.mk (s.toList.map Char.toLower)

/-- `any(word in m for word in kws)`. -/
def containsAnyKw (m : String) (kws : List String) : Bool :=
  kws.any (fun k => strContains m k)

/-- Python `s.strip(chars)`: remove leading and trailing characters
drawn from the given set. -/
def stripChars (s : String) (set : List Char) : String :=
  String.mk (((s.toList.dropWhile (set.contains ·)).reverse.dropWhile
    (set.contains ·)).reverse)

/-- Python whitespace for `str.strip()` and `int()`. -/
def pyWsChar (c : Char) : Bool :=
  c = ' ' || c = '\t' || c = '\n' || c = '\r' || c = Char.ofNat 11 || c = Char.ofNat 12

/-- Python `s.strip()` (whitespace). -/
def pyStripWs (s : String) : String :=
  String.mk (((s.toList.dropWhile pyWsChar).reverse.dropWhile pyWsChar).reverse)

/-- `re.sub(r"```[a-zA-Z]*", "", s)`, fuel-driven: drop every occurrence
of three backticks followed by a maximal run of ASCII letters. Every
step consumes at least one character, so `length + 1` fuel always
suffices and the fuel-exhaustion branch is dead. -/
def stripFencesF : Nat → List Char → List Char
  | 0, cs => cs
  | Nat.succ fuel, cs =>
    match cs with
    | '`' :: '`' :: '`' :: rest => stripFencesF fuel (rest.dropWhile Char.isAlpha)
    | c :: rest => c :: stripFencesF fuel rest
    | [] => []

/-- `re.sub(r"```[a-zA-Z]*", "", s)`. -/
def stripFences (cs : List Char) : List Char := stripFencesF (cs.length + 1) cs

/-- Index of the last occurrence of a character. -/
def lastIdxOf (cs : List Char) (c : Char) : Option Nat :=
  match cs.reverse.findIdx? (· = c) with
  | some j => some (cs.length - 1 - j)
  | none => none

/-- `re.search(r"\{.*\}", s, re.DOTALL)`: with a greedy dot-all body the
leftmost match runs from the first opening brace to the last closing
brace, provided the latter comes after the former. -/
def braceSpanRegex (s : String) : Option String :=
  let cs := s.toList
  match cs.findIdx? (· = '{'), lastIdxOf cs '}' with
  | some i, some j => if i < j then some (String.mk ((cs.drop i).take (j - i + 1))) else none
  | _, _ => none

/-- `llm_out[llm_out.find('{') : llm_out.rfind('}') + 1]` as used by
`llm_parse_query` (slice may be empty when the last `}` precedes the
first `{`). -/
def llmBraceSlice (s : String) : Option String :=
  let cs := s.toList
  match cs.findIdx? (· = '{'), lastIdxOf cs '}' with
  | some i, some j => some (String.mk ((cs.drop i).take (j + 1 - i)))
  | _, _ => none

/-- The markdown-fence cleanup shared by the extraction sites:
`re.sub(r"```[a-zA-Z]*", "", out).strip("` \n")`. -/
def cleanLLMOut (s : String) : String :=
  stripChars (String.mk (stripFences s.toList)) ['`', ' ', '\n']

/-- Fence cleanup followed by the brace-span regex search. -/
def fencedBraceSpan (s : String) : Option String :=
  braceSpanRegex (cleanLLMOut s)

/-- Fence cleanup, brace-span search, then `json.loads`; `none` covers
both "no match" and "parse error" (used at sites where both outcomes
lead to the same branch). -/
def extractJson (s : String) : Option JValue :=
  (fencedBraceSpan s).bind jsonLoads

/-- Fence cleanup, brace-span search, `json.loads`, requiring an object
(the shape every `.get` call site needs). -/
def extractJsonObj (s : String) : Option (List (String × JValue)) :=
  match extractJson s with
  | some (.obj kvs) => some kvs
  | _ => none

/- ===== Python int() and exceptions ===== -/

/-- Digit run with single underscores between digits (tail position). -/
def digitsURest : List Char → Bool
  | [] => true
  | '_' :: c :: rest => c.isDigit && digitsURest rest
  | '_' :: [] => false
  | c :: rest => c.isDigit && digitsURest rest

/-- A valid Python integer digit sequence (nonempty, underscores only
between digits). -/
def digitsUOk : List Char → Bool
  | [] => false
  | c :: rest => c.isDigit && digitsURest rest

/-- Python `int(s)` on a string: strip whitespace, optional sign, digits
with optional single underscores. -/
def pyStrToInt (s : String) : Option Int :=
  let cs := ((s.toList.dropWhile pyWsChar).reverse.dropWhile pyWsChar).reverse
  let (neg, ds) :=
    match cs with
    | '+' :: r => (false, r)
    | '-' :: r => (true, r)
    | r => (false, r)
  if digitsUOk ds then
    let n : Nat := (ds.filter (· ≠ '_')).foldl (fun a c => a * 10 + (c.toNat - '0'.toNat)) 0
    some (if neg then -(n : Int) else (n : Int))
  else none

/-- The exception classes the repository's `except` clauses distinguish. -/
inductive ExcKind where
  | valueError
  | typeError
  | keyError
  | indexError
  | other
deriving Repr, DecidableEq

/-- A raised Python exception (class + `str(e)` text; the text of
runtime-generated messages is abstracted by fixed strings). -/
structure PyExc where
  kind : ExcKind
  msg : String

/-- Python `int(v)` on a JSON-shaped value: numbers pass through, bools
coerce (bool is an int subclass), strings parse or raise `ValueError`,
everything else raises `TypeError`. -/
def pyToInt : JValue → Except PyExc Int
  | .num n => .ok n
  | .bool b => .ok (if b then 1 else 0)
  | .str s =>
      match pyStrToInt s with
      | some n => .ok n
      | none => .error ⟨.valueError, "invalid literal for int() with base 10: " ++ s⟩
  | .null => .error ⟨.typeError, "int() argument must be a string or a real number, not NoneType"⟩
  | .arr _ => .error ⟨.typeError, "int() argument must be a string or a real number, not list"⟩
  | .obj _ => .error ⟨.typeError, "int() argument must be a string or a real number, not dict"⟩

/-- Python `v == s` for a string literal `s`. -/
def jvEqStr : JValue → String → Bool
  | .str t, s => t = s
  | _, _ => false

/-- Python `k in v` for a string `k`: key test on dicts, membership on
lists, substring on strings, `TypeError` otherwise. -/
def pyContains (k : String) : JValue → Except PyExc Bool
  | .obj kvs => .ok (jHasKey kvs k)
  | .arr xs => .ok (xs.any (fun x => jvEqStr x k))
  | .str s => .ok (strContains s k)
  | _ => .error ⟨.typeError, "argument is not iterable"⟩

/-- Python `v[k]` for a string key. -/
def pyGetItemStr (v : JValue) (k : String) : Except PyExc JValue :=
  match v with
  | .obj kvs =>
      match jLookup kvs k with
      | some x => .ok x
      | none => .error ⟨.keyError, k⟩
  | .str _ => .error ⟨.typeError, "string indices must be integers"⟩
  | .arr _ => .error ⟨.typeError, "list indices must be integers or slices, not str"⟩
  | _ => .error ⟨.typeError, "object is not subscriptable"⟩

/-- Python `v[0]`. -/
def pySubscriptZero (v : JValue) : Except PyExc JValue :=
  match v with
  | .arr (x :: _) => .ok x
  | .arr [] => .error ⟨.indexError, "list index out of range"⟩
  | .str s =>
      match s.toList with
      | c :: _ => .ok (.str (String.mk [c]))
      | [] => .error ⟨.indexError, "string index out of range"⟩
  | .obj _ => .error ⟨.keyError, "0"⟩
  | _ => .error ⟨.typeError, "object is not subscriptable"⟩

example : strContains "buy me a refund" "refund" = true := rfl
example :
    extractJson (String.mk ['`', '`', '`', 'j', 's', 'o', 'n', '\n'] ++
      pyJsonDumps (.obj [("a", .num 1)]) ++ String.mk ['\n', '`', '`', '`']) =
    some (.obj [("a", .num 1)]) := rfl
example : pyStrToInt " 5904242344019 " = some 5904242344019 := rfl
example : pyStrToInt "12a" = none := rfl

/- ===== Tool Gateway: call_mcp_server ===== -/

/-- The transport-level outcome of `requests.post(url, json=payload,
timeout=30)` followed by `response.json()`: either the request raised
(connection error, timeout, ...) or an HTTP response with a status code
and a body text arrived. -/
inductive TransportResult where
  | err (msg : String)
  | resp (status : Nat) (body : String)

/-- `{"error": msg}`. -/
def errObj (msg : String) : JValue := .obj [("error", .str msg)]

/-- Is the value an object carrying an `"error"` key (the gateway's and
handlers' error-value shape)? -/
def isErrorValue : JValue → Bool
  | .obj kvs => jHasKey kvs "error"
  | _ => false

/-- Placeholder for the text of a `json.JSONDecodeError` (the repository
never inspects it). -/
def jsonDecodeErrText : String := "Expecting value"

/-- Placeholder for the text of the `requests.HTTPError` raised by
`raise_for_status()` on a 4xx/5xx code. -/
def httpErrText (status : Nat) : String := toString status ++ " Client or Server Error"

/-- The body of the `try` in `call_mcp_server` after `response.json()`
succeeded with value `result`:

    if "result" in result and "content" in result["result"]:
        content = result["result"]["content"]
        if content and "text" in content[0]:
            return json.loads(content[0]["text"])
    return {"error": "Invalid MCP response format"}

Each subscript/containment step may raise; `json.loads` on a non-string
raises `TypeError`, on unparseable text `JSONDecodeError` (a
`ValueError`). -/
def mcpTryBody (result : JValue) : Except PyExc JValue :=
  match pyContains "result" result with
  | .error e => .error e
  | .ok c1 =>
    if c1 then
      match pyGetItemStr result "result" with
      | .error e => .error e
      | .ok r =>
        match pyContains "content" r with
        | .error e => .error e
        | .ok c2 =>
          if c2 then
            match pyGetItemStr r "content" with
            | .error e => .error e
            | .ok content =>
              if pyTruthy content then
                match pySubscriptZero content with
                | .error e => .error e
                | .ok c0 =>
                  match pyContains "text" c0 with
                  | .error e => .error e
                  | .ok c3 =>
                    if c3 then
                      match pyGetItemStr c0 "text" with
                      | .error e => .error e
                      | .ok (.str ts) =>
                        (match jsonLoads ts with
                         | some v => .ok v
                         | none => .error ⟨.valueError, jsonDecodeErrText⟩)
                      | .ok _ =>
                          .error ⟨.typeError, "the JSON object must be str, bytes or bytearray"⟩
                    else .ok (errObj "Invalid MCP response format")
              else .ok (errObj "Invalid MCP response format")
          else .ok (errObj "Invalid MCP response format")
    else .ok (errObj "Invalid MCP response format")

/-- `call_mcp_server` (identical in `langgraph_agent_workflow.py` and
`api/index.py`): POST the JSON-RPC envelope, `raise_for_status()` (which
raises exactly for 4xx/5xx codes), parse the body, unwrap
`result.content[0].text`, and convert every raised exception to an
`{"error": ...}` value. -/
def call_mcp_server : TransportResult → JValue
  | .err m => errObj ("MCP server error: " ++ m)
  | .resp status body =>
    if 400 ≤ status ∧ status < 600 then
      errObj ("MCP server error: " ++ httpErrText status)
    else
      match jsonLoads body with
      | none => errObj ("MCP server error: " ++ jsonDecodeErrText)
      | some result =>
        match mcpTryBody result with
        | .ok v => v
        | .error e => errObj ("MCP server error: " ++ e.msg)

/-- Specification-side description of §4.2's successful-extraction rule,
written from the spec's words: "read `result.content[0].text` and parse
it as JSON". Used to compare the gateway against the spec. -/
def specMcpExtract (env : JValue) : Option JValue :=
  match env with
  | .obj kvs =>
    match jLookup kvs "result" with
    | some (.obj rkvs) =>
      match jLookup rkvs "content" with
      | some (.arr (.obj ckvs :: _)) =>
        match jLookup ckvs "text" with
        | some (.str t) => jsonLoads t
        | _ => none
      | _ => none
    | _ => none
  | _ => none

example :
    call_mcp_server (.resp 200 (pyJsonDumps (.obj [("result",
      .obj [("content", .arr [.obj [("text", .str (pyJsonDumps (.obj [("x", .num 1)])))]])])]))) =
    .obj [("x", .num 1)] := rfl
example : call_mcp_server (.err "timeout") = errObj "MCP server error: timeout" := rfl
example : call_mcp_server (.resp 404 "x") =
    errObj ("MCP server error: " ++ httpErrText 404) := rfl
example : call_mcp_server (.resp 200 (pyJsonDumps (.obj [("a", .num 1)]))) =
    errObj "Invalid MCP response format" := rfl

/- ===== Language-Model Gateway =====
`call_gemini_llm` catches every internal failure and returns `""`; its
output is therefore an arbitrary string, supplied to each node as an
explicit input. Prompt texts only flow outward (into the oracle) and are
not modelled. -/

/- ===== Intent Classifier (analyze_user_intent) ===== -/

/-- Fallback keyword set for `order_creation`. -/
def order_keywords : List String := ["buy", "purchase", "order", "add to cart"]

/-- Fallback keyword set for `order_status`. -/
def status_keywords : List String := ["track", "status", "order id", "tracking"]

/-- Fallback keyword set for `info_search`. -/
def info_keywords : List String :=
  ["return", "refund", "exchange", "contact", "phone", "email", "support", "address",
   "offer", "discount", "sale", "promotion", "deal"]

/-- The keyword fallback of `analyze_user_intent` (lines 138-150): scan
the lowercased message against the three keyword sets in order, default
`product_search`. -/
def fallbackIntent (msg : String) : String :=
  let m := pyLower msg
  if containsAnyKw m order_keywords then "order_creation"
  else if containsAnyKw m status_keywords then "order_status"
  else if containsAnyKw m info_keywords then "info_search"
  else "product_search"

/-- `analyze_user_intent`: extract a JSON object from the LLM output
(fence cleanup + brace-span + `json.loads`); on success return
`(intent_data.get("intent", "product_search"),
intent_data.get("details", {}))`; on any failure run the keyword
fallback. (A brace-span match always starts with `{`, so a successful
parse is an object; the non-object branch mirrors the `AttributeError`
path, which the enclosing `except` also sends to the fallback.) -/
def analyze_user_intent (msg : String) (llmOut : String) : JValue × JValue :=
  match extractJson llmOut with
  | some (.obj kvs) =>
      (jGetD kvs "intent" (.str "product_search"), jGetD kvs "details" (.obj []))
  | some _ => (.str (fallbackIntent msg), .obj [])
  | none => (.str (fallbackIntent msg), .obj [])

/- ===== Structured Extraction: llm_parse_query ===== -/

/-- The deterministic fallback of `llm_parse_query`. -/
def llmParseFallback (userQuery : String) : JValue :=
  .obj [("query", .str userQuery), ("filters", .obj [])]

/-- `llm_parse_query` as a function of the user query and the Gemini
output: when the output is non-empty, slice from the first `{` to the
last `}` and `json.loads` it; on empty output, missing braces, or a
parse error (the raised `JSONDecodeError` is caught by the enclosing
`try`), return `{"query": user_query, "filters": {}}`. -/
def llm_parse_query (userQuery : String) (llmOut : String) : JValue :=
  if llmOut = "" then llmParseFallback userQuery
  else
    match llmBraceSlice llmOut with
    | some s =>
      match jsonLoads s with
      | some v => v
      | none => llmParseFallback userQuery
    | none => llmParseFallback userQuery

/- ===== Node plumbing ===== -/

/-- The partial `AgentState` update a LangGraph node returns (every
field optional, mirroring the Python dicts). -/
structure StateUpdate where
  intent : Option JValue
  intent_details : Option JValue
  products : Option JValue
  order_result : Option JValue
  order_status : Option JValue
  info_result : Option JValue
  final_response : Option String

/-- Update writing `products` and `final_response = json.dumps(v)`. -/
def productsUpd (v : JValue) : StateUpdate :=
  ⟨none, none, some v, none, none, none, some (pyJsonDumps v)⟩

/-- Update writing `order_result` and `final_response = json.dumps(v)`. -/
def orderResultUpd (v : JValue) : StateUpdate :=
  ⟨none, none, none, some v, none, none, some (pyJsonDumps v)⟩

/-- Update writing `order_status` and `final_response = json.dumps(v)`. -/
def orderStatusUpd (v : JValue) : StateUpdate :=
  ⟨none, none, none, none, some v, none, some (pyJsonDumps v)⟩

/-- Update writing `info_result` and `final_response = json.dumps(v)`. -/
def infoResultUpd (v : JValue) : StateUpdate :=
  ⟨none, none, none, none, none, some v, some (pyJsonDumps v)⟩

/-- Update written by `analyze_user_intent`. -/
def intentUpd (it det : JValue) : StateUpdate :=
  ⟨some it, some det, none, none, none, none, none⟩

/-- One invocation of the Tool Gateway: endpoint, tool name, arguments. -/
structure McpCall where
  url : String
  tool : String
  arguments : JValue

/-- Catalog-search endpoint. -/
def PRODUCT_SEARCH_MCP_URL : String := "https://n5ycpj-wu.myshopify.com/api/mcp"

/-- Order-lifecycle endpoint. -/
def ORDER_MCP_URL : String := "https://cnx-demo-mcp-server.onrender.com/api/mcp"

/- ===== Order Creation Handler (order_creation_node) ===== -/

/-- `order_creation_node` as a function of the extraction-LLM output,
the transport outcome of the (possible) `create_order` call, and the
reformat-LLM output. Control flow translated from lines 340-449:

* no brace-span in the extraction output → both `try` blocks complete
  without reaching a `return`, so the Python function returns `None`
  (modelled as no state update) and no tool call is made;
* extraction parse error → the inner `except` returns an
  "Order parsing failed" error value;
* `needs_more_info` truthy (or absent: the `get` default is `True`) →
  "Missing information..." error value, no tool call;
* a `KeyError`/`ValueError`/`TypeError` while building the payload
  (missing `variant_id`/`email`, non-integer `variant_id`) is caught by
  the inner `except` → "Order parsing failed" error value, no tool call;
* otherwise invoke `create_order` with the nested `order` payload; if
  the reformat output yields a JSON object return it, else return the
  raw tool result unchanged. -/
def order_creation_node (ocExtractOut : String) (ocWire : TransportResult)
    (ocFormatOut : String) : Option StateUpdate × List McpCall :=
  match fencedBraceSpan ocExtractOut with
  | none => (none, [])
  | some s =>
    match jsonLoads s with
    | none =>
        (some (orderResultUpd (errObj ("Order parsing failed: " ++ jsonDecodeErrText))), [])
    | some order_info =>
      match order_info with
      | .obj kvs =>
        if pyTruthy (jGetD kvs "needs_more_info" (.bool true)) then
          (some (orderResultUpd (errObj
            "Missing information. Please provide variant ID and email address to create an order.")), [])
        else
          match (do
            let vid ← pyGetItemStr order_info "variant_id"
            let n ← pyToInt vid
            let em ← pyGetItemStr order_info "email"
            pure (n, em) : Except PyExc (Int × JValue)) with
          | .error e =>
              (some (orderResultUpd (errObj ("Order parsing failed: " ++ e.msg))), [])
          | .ok (n, em) =>
            let order_payload : JValue := .obj [("order", .obj [
                ("line_items", .arr [.obj [("variant_id", .num n),
                                           ("quantity", jGetD kvs "quantity" (.num 1))]]),
                ("customer", .obj [("email", em)]),
                ("financial_status", .str "paid"),
                ("test", .bool true)])]
            let raw_order_result := call_mcp_server ocWire
            let calls : List McpCall := [⟨ORDER_MCP_URL, "create_order", order_payload⟩]
            match extractJson ocFormatOut with
            | some formatted_order => (some (orderResultUpd formatted_order), calls)
            | none => (some (orderResultUpd raw_order_result), calls)
      | _ =>
          (some (orderResultUpd (errObj ("Order parsing failed: " ++
            "object has no attribute get"))), [])

/- ===== Order Status Handler (order_status_node) ===== -/

/-- `order_status_node` as a function of the extraction-LLM output, the
transport outcome of the (possible) `get_order_status` call, and the
reformat-LLM output. Control flow translated from lines 452-552:

* no brace-span → Python returns `None` (no update, no call);
* extraction parse error → "Order ID parsing failed" error value;
* `found` falsy (default `False`) → "Please provide a valid order ID to
  check status." error value, no call;
* `order_info["order_id"]` missing raises `KeyError`, which the
  `except (ValueError, TypeError)` does *not* catch; the enclosing
  handler returns "Order ID parsing failed", no call;
* `int(...)` raising `ValueError`/`TypeError` → "Invalid order ID
  format." error value, no call;
* otherwise invoke `get_order_status` with `{"order_id": n}`; reformat
  object if parseable, else the raw tool result unchanged. -/
def order_status_node (osExtractOut : String) (osWire : TransportResult)
    (osFormatOut : String) : Option StateUpdate × List McpCall :=
  match fencedBraceSpan osExtractOut with
  | none => (none, [])
  | some s =>
    match jsonLoads s with
    | none =>
        (some (orderStatusUpd (errObj ("Order ID parsing failed: " ++ jsonDecodeErrText))), [])
    | some order_info =>
      match order_info with
      | .obj kvs =>
        if !pyTruthy (jGetD kvs "found" (.bool false)) then
          (some (orderStatusUpd (errObj "Please provide a valid order ID to check status.")), [])
        else
          match pyGetItemStr order_info "order_id" with
          | .error e =>
              (some (orderStatusUpd (errObj ("Order ID parsing failed: " ++ e.msg))), [])
          | .ok v =>
            match pyToInt v with
            | .error _ =>
                (some (orderStatusUpd (errObj "Invalid order ID format.")), [])
            | .ok n =>
              let raw_status_result := call_mcp_server osWire
              let calls : List McpCall :=
                [⟨ORDER_MCP_URL, "get_order_status", .obj [("order_id", .num n)]⟩]
              match extractJson osFormatOut with
              | some formatted_status => (some (orderStatusUpd formatted_status), calls)
              | none => (some (orderStatusUpd raw_status_result), calls)
      | _ =>
          (some (orderStatusUpd (errObj ("Order ID parsing failed: " ++
            "object has no attribute get"))), [])

/- ===== Product Search Handler (product_search_node) ===== -/

/-- Python single-quote character (written via its code point to keep
string literals quote-free). -/
def sqc : Char := Char.ofNat 39

mutual

/-- Python `repr` of a JSON-shaped value (as used when a dict/list is
interpolated into an f-string). String quoting is simplified to plain
single quotes. -/
def pyRepr : JValue → List Char
  | .null => ['N', 'o', 'n', 'e']
  | .bool true => ['T', 'r', 'u', 'e']
  | .bool false => ['F', 'a', 'l', 's', 'e']
  | .num n => (toString n).toList
  | .str s => sqc :: s.toList ++ [sqc]
  | .arr xs => '[' :: pyReprArr xs ++ [']']
  | .obj kvs => '{' :: pyReprObj kvs ++ ['}']

/-- `repr` of list elements. -/
def pyReprArr : List JValue → List Char
  | [] => []
  | [x] => pyRepr x
  | x :: y :: xs => pyRepr x ++ ',' :: ' ' :: pyReprArr (y :: xs)

/-- `repr` of dict items. -/
def pyReprObj : List (String × JValue) → List Char
  | [] => []
  | [(k, v)] => sqc :: k.toList ++ sqc :: ':' :: ' ' :: pyRepr v
  | (k, v) :: m :: kvs =>
      sqc :: k.toList ++ sqc :: ':' :: ' ' :: pyRepr v ++ ',' :: ' ' :: pyReprObj (m :: kvs)

end

/-- Python `str(v)` as used inside an f-string: strings unquoted,
containers via `repr`. -/
def pyStrOf : JValue → String
  | .str s => s
  | v => String.mk (pyRepr v)

/-- `SEARCH_CONTEXT_TEMPLATE.format(message=msg)`. -/
def searchContext (msg : String) : String :=
  "Search Query: " ++ msg ++ "\n" ++
  "Filtering Guidelines:\n" ++
  "- Prioritize products that match the search terms in title, description, or tags\n" ++
  "- For patterns (floral, striped, etc.): prefer products with matching patterns\n" ++
  "- For product types: include relevant category matches\n" ++
  "- For price constraints: filter by specified price ranges\n" ++
  "- Return relevant products even if not exact matches\n" ++
  "- Include similar or related products when appropriate"

/-- The no-products diagnostic envelope. -/
def noProductsDebug (mcp_result : JValue) : JValue :=
  .obj [("products", .arr []),
        ("debug", .obj [("message", .str "No products returned from MCP server"),
                        ("mcp_response", mcp_result)])]

/-- `product_search_node` as a function of the user message, the
parse-LLM output, the transport outcome of the catalog call, and the
filter-LLM output (lines 191-337):

* build `arguments` from `llm_parse_query` (forwarding only `price`
  when it is a dict, and `availability` when the key is present);
* a truthy non-dict `filters` value makes `filters.get("price")` raise
  `AttributeError`, caught by the handler's outer `except`;
* call `search_shop_catalog`; an `error` key (without a `products` key)
  short-circuits to an error value; missing/falsy products produce the
  diagnostic envelope with the raw MCP response attached;
* otherwise the filter-LLM output is parsed like every other extraction
  site; on failure the unfiltered raw product list is returned. -/
def product_search_node (msg : String) (psParseOut : String) (psWire : TransportResult)
    (psFilterOut : String) : Option StateUpdate × List McpCall :=
  match llm_parse_query msg psParseOut with
  | .obj pkvs =>
    let mcp_query := jGetD pkvs "query" (.str msg)
    let args0 : List (String × JValue) :=
      [("query", mcp_query), ("context", .str (searchContext msg))]
    let filters0 := jGetD pkvs "filters" (.obj [])
    let filters := if pyTruthy filters0 then filters0 else .obj []
    match filters with
    | .obj fkvs =>
      let args1 :=
        match jLookup fkvs "price" with
        | some (.obj pr) => args0 ++ [("price", .obj pr)]
        | _ => args0
      let args2 :=
        if jHasKey fkvs "availability" then
          args1 ++ [("availability", jGetD fkvs "availability" .null)]
        else args1
      let mcp_result := call_mcp_server psWire
      let calls : List McpCall :=
        [⟨PRODUCT_SEARCH_MCP_URL, "search_shop_catalog", .obj args2⟩]
      match mcp_result with
      | .obj mkvs =>
        if jHasKey mkvs "products" then
          let raw_products := jGetD mkvs "products" .null
          if !pyTruthy raw_products then
            (some (productsUpd (noProductsDebug mcp_result)), calls)
          else
            match extractJson psFilterOut with
            | some formatted_products => (some (productsUpd formatted_products), calls)
            | none => (some (productsUpd (.obj [("products", raw_products)])), calls)
        else if jHasKey mkvs "error" then
          (some (productsUpd (errObj ("Product search failed: " ++
            pyStrOf (jGetD mkvs "error" .null)))), calls)
        else
          (some (productsUpd (noProductsDebug mcp_result)), calls)
      | _ => (some (productsUpd (noProductsDebug mcp_result)), calls)
    | _ =>
      (some (productsUpd (errObj ("Product search failed: " ++
        "object has no attribute get"))), [])
  | _ =>
    (some (productsUpd (errObj ("Product search failed: " ++
      "object has no attribute get"))), [])

/- ===== Info Search Handler (info_search_node) ===== -/

/-- Outcome of the external RAG machinery (Pinecone client, embeddings,
vector store, probe search, retrieval chain), reached only when all
three credentials are configured: it raises, detects an empty index via
the one-item probe, or yields a raw grounded answer plus the retrieved
source identifiers. -/
inductive RagOutcome where
  | raises (msg : String)
  | emptyProbe
  | ok (rawAnswer : String) (sources : List String)

/-- `os.getenv` results are falsy when the variable is unset or empty. -/
def envFalsy : Option String → Bool
  | none => true
  | some s => s = ""

/-- Steps 1-5 of the RAG pipeline as a single guarded attempt: the three
configuration checks raise `ValueError` with the messages below, then
the external machinery runs (lines 563-607). -/
def ragAttempt (gkey pkey pindex : Option String) (rag : RagOutcome) :
    Except String (String × List String) :=
  if envFalsy gkey then .error "Google API key not found (GOOGLE_API_KEY or GEMINI_API_KEY)"
  else if envFalsy pkey then .error "Pinecone API key not found (PINECONE_API_KEY)"
  else if envFalsy pindex then .error "Pinecone index not found (PINECONE_INDEX)"
  else
    match rag with
    | .raises m => .error m
    | .emptyProbe => .error "Pinecone index appears to be empty"
    | .ok a srcs => .ok (a, srcs)

/-- Canned answer for the return-policy topic. -/
def return_policy_canned : String :=
  "Our standard return/exchange window is 7–14 days for unused items with original tags and receipt. Certain items may be non-returnable. For exact policy details, please refer to our Return Policy page or contact support."

/-- Canned answer for the contact-details topic. -/
def contact_canned : String :=
  "You can reach support via email at support@example.com or phone at +1-000-000-0000. Business hours: Mon–Fri, 9am–6pm IST."

/-- Canned answer for the current-offers topic. -/
def offers_canned : String :=
  "Current promotions vary by season. Please check the Offers page or sign up for our newsletter/app notifications for the latest discounts and coupon codes."

/-- Canned answer when no topic keyword matches. -/
def generic_canned : String :=
  "I can help with return policy, contact details, or current offers. Please specify your question."

/-- The static topic classifier of the RAG fallback (lines 719-732):
keyword scan over the lowercased message; the topic label stays at its
initial value `"general"` when nothing matches. -/
def infoFallbackTopicAnswer (userQ : String) : String × String :=
  let m := pyLower userQ
  if containsAnyKw m ["return", "refund", "exchange", "policy"] then
    ("return_policy", return_policy_canned)
  else if containsAnyKw m ["contact", "phone", "email", "support", "address", "reach"] then
    ("contact_details", contact_canned)
  else if containsAnyKw m ["offer", "discount", "sale", "promotion", "deal", "coupon"] then
    ("current_offers", offers_canned)
  else
    ("general", generic_canned)

/-- First-seen-order deduplication (`list(dict.fromkeys(sources))`). -/
def dedupFirstAux : List String → List String → List String
  | [], _ => []
  | s :: rest, seen =>
      if seen.contains s then dedupFirstAux rest seen
      else s :: dedupFirstAux rest (s :: seen)

/-- `list(dict.fromkeys(sources))`. -/
def dedupFirst (xs : List String) : List String := dedupFirstAux xs []

/-- `info_search_node` (lines 555-744) as a function of the user
message, the three credentials, the RAG outcome and the brand-format
LLM output. The offers-aware branch only changes the prompt sent to the
LLM (not modelled); `call_gemini_llm(format_prompt) or raw_answer`
makes an empty format output fall back to the raw answer. On any
failure the static fallback payload carries the topic, the canned
answer and a note naming the failure. The fallback path is total. -/
def info_search_node (userQ : String) (gkey pkey pindex : Option String)
    (rag : RagOutcome) (ragFormatOut : String) : Option StateUpdate × List McpCall :=
  match ragAttempt gkey pkey pindex rag with
  | .ok (rawAnswer, sources) =>
    let formatted := if ragFormatOut = "" then rawAnswer else ragFormatOut
    let answer := pyStripWs formatted
    let srcs := if sources.isEmpty then [] else dedupFirst sources
    let payload : JValue :=
      .obj [("info", .obj [("topic", .str "general"),
                           ("answer", .str (pyStripWs answer))]),
            ("sources", .arr (srcs.map JValue.str))]
    (some (infoResultUpd payload), [])
  | .error e =>
    let ta := infoFallbackTopicAnswer userQ
    let payload : JValue :=
      .obj [("info", .obj [("topic", .str ta.1),
                           ("answer", .str ta.2),
                           ("note", .str ("RAG not available; showing fallback information. Error: " ++ e))])]
    (some (infoResultUpd payload), [])

/- ===== Workflow Orchestrator ===== -/

/-- `route_by_intent` (lines 747-758): dispatch on the classified
intent, defaulting to product search. -/
def route_by_intent (intent : JValue) : String :=
  if jvEqStr intent "order_creation" then "order_creation"
  else if jvEqStr intent "order_status" then "order_status"
  else if jvEqStr intent "info_search" then "info_search"
  else "product_search"

/-- The full `AgentState` at the end of a run. -/
structure FinalState where
  user_message : String
  intent : JValue
  intent_details : JValue
  products : Option JValue
  order_result : Option JValue
  order_status : Option JValue
  info_result : Option JValue
  final_response : Option String

/-- Merge a field update (LangGraph channel write). -/
def updField {α : Type} (new old : Option α) : Option α :=
  match new with
  | some v => some v
  | none => old

/-- Apply a node's returned update to the state; a `None` return writes
nothing (LangGraph treats a node returning `None` as "no update"). -/
def applyUpd (st : FinalState) : Option StateUpdate → FinalState
  | none => st
  | some u =>
      ⟨st.user_message,
       (u.intent.getD st.intent),
       (u.intent_details.getD st.intent_details),
       updField u.products st.products,
       updField u.order_result st.order_result,
       updField u.order_status st.order_status,
       updField u.info_result st.info_result,
       updField u.final_response st.final_response⟩

/-- All external inputs of one workflow run: the Gemini outputs consumed
by each node (in call order), the transport outcome of each node's
possible tool call, and the RAG environment. -/
structure ExtIn where
  intentOut : String
  psParseOut : String
  psFilterOut : String
  psWire : TransportResult
  ocExtractOut : String
  ocFormatOut : String
  ocWire : TransportResult
  osExtractOut : String
  osFormatOut : String
  osWire : TransportResult
  gkey : Option String
  pkey : Option String
  pindex : Option String
  rag : RagOutcome
  ragFormatOut : String

/-- The compiled graph of `create_agent_workflow` applied to
`{"user_message": msg}`: run `analyze_intent`, route by intent to
exactly one handler, merge the updates, also collecting the tool calls
the run issued. -/
def runWorkflow (ext : ExtIn) (msg : String) : FinalState × List McpCall :=
  let an := analyze_user_intent msg ext.intentOut
  let st0 : FinalState := ⟨msg, an.1, an.2, none, none, none, none, none⟩
  let st1 := applyUpd st0 (some (intentUpd an.1 an.2))
  let nodeOut :=
    match route_by_intent st1.intent with
    | "order_creation" => order_creation_node ext.ocExtractOut ext.ocWire ext.ocFormatOut
    | "order_status" => order_status_node ext.osExtractOut ext.osWire ext.osFormatOut
    | "info_search" =>
        info_search_node msg ext.gkey ext.pkey ext.pindex ext.rag ext.ragFormatOut
    | _ => product_search_node msg ext.psParseOut ext.psWire ext.psFilterOut
  (applyUpd st1 nodeOut.1, nodeOut.2)

/-- Lines 803-815 of `process_user_message`: when `final_response`
parses as a JSON object, `setdefault("user_intent", intent)` and
re-serialize; otherwise leave the string untouched (the `except` also
lands here). -/
def augmentFinal (fr : String) (intent : JValue) : String :=
  match jsonLoads fr with
  | some (.obj kvs) => pyJsonDumps (.obj (pySetdefault kvs "user_intent" intent))
  | _ => fr

/-- The envelope `process_user_message` returns. -/
structure Envelope where
  user_message : String
  intent : JValue
  intent_details : JValue
  final_response : String
  full_state : FinalState
  user_intent : JValue

/-- `process_user_message` (lines 796-824, `langgraph_agent_workflow.py`):
invoke the graph, then augment `final_response` with the classified
intent (`result.get("final_response") or ""` maps a missing or empty
value to `""`). -/
def process_user_message (ext : ExtIn) (msg : String) : Envelope :=
  let st := (runWorkflow ext msg).1
  let fr := st.final_response.getD ""
  ⟨st.user_message, st.intent, st.intent_details, augmentFinal fr st.intent, st, st.intent⟩

/- ===== Claim theorems ===== -/

/-- Specification-side fallback classifier, written from §4.4's words:
scan the keyword sets in precedence order (order, then status, then
info), defaulting to `product_search`. Used to compare the code-side
`fallbackIntent` against the spec. -/
def specFallbackClassify (msg : String) : String :=
  let cats : List (List String × String) :=
    [(order_keywords, "order_creation"),
     (status_keywords, "order_status"),
     (info_keywords, "info_search")]
  ((cats.find? (fun c => containsAnyKw (pyLower msg) c.1)).map Prod.snd).getD "product_search"

/-- Claim C2: when the intent-classification LLM output is unusable the
fallback scans the lowercased message against the keyword sets in
precedence order (order_creation, then order_status, then info_search,
default product_search); the code classifier coincides with the
spec-side classifier on every message, any message containing an
order keyword classifies as order_creation regardless of other
keywords, "buy me a refund" classifies as order_creation, and
`analyze_user_intent` indeed runs this fallback whenever no JSON object
can be extracted from the LLM output. -/
theorem fallback_intent_precedence :
    (∀ msg : String, fallbackIntent msg = specFallbackClassify msg) ∧
    (∀ msg : String, containsAnyKw (pyLower msg) order_keywords = true →
        fallbackIntent msg = "order_creation") ∧
    fallbackIntent "buy me a refund" = "order_creation" ∧
    (∀ msg llmOut : String, extractJsonObj llmOut = none →
        analyze_user_intent msg llmOut = (.str (fallbackIntent msg), .obj [])) := by
  refine ⟨?_, ?_, rfl, ?_⟩
  · intro msg
    unfold fallbackIntent specFallbackClassify
    by_cases h1 : containsAnyKw (pyLower msg) order_keywords <;>
      by_cases h2 : containsAnyKw (pyLower msg) status_keywords <;>
        by_cases h3 : containsAnyKw (pyLower msg) info_keywords <;>
          simp [List.find?, h1, h2, h3]
  · intro msg h
    unfold fallbackIntent
    simp [h]
  · intro msg llmOut h
    unfold analyze_user_intent
    unfold extractJsonObj at h
    cases hx : extractJson llmOut with
    | none => simp [hx]
    | some v =>
      rw [hx] at h
      cases v <;> simp_all

/-- Witness for C2: the hypotheses are satisfiable — "buy me a refund"
contains an order keyword (and an info keyword), and a fence-free
non-JSON LLM output makes the extraction fail. -/
theorem fallback_intent_precedence_witness :
    fallbackIntent "buy me a refund" = "order_creation" ∧
    analyze_user_intent "buy me a refund" "no json here" =
      (.str (fallbackIntent "buy me a refund"), .obj []) :=
  ⟨fallback_intent_precedence.2.1 "buy me a refund" rfl,
   fallback_intent_precedence.2.2.2 "buy me a refund" "no json here" rfl⟩

/-- Claim C4: for every input text and every Gemini output (including
non-JSON text and the empty string), `llm_parse_query` is total and
returns either the JSON value parsed from the first-`{`-to-last-`}`
slice of the output, or — on empty output, missing braces, or a parse
failure at any step — exactly the deterministic fallback
`{"query": <original message>, "filters": {}}`; the parse failure is
never propagated. -/
theorem llm_parse_query_fallback_contract :
    (∀ q out : String, llm_parse_query q out = llmParseFallback q ∨
        ∃ s v, llmBraceSlice out = some s ∧ jsonLoads s = some v ∧
          llm_parse_query q out = v) ∧
    (∀ q out s v, out ≠ "" → llmBraceSlice out = some s → jsonLoads s = some v →
        llm_parse_query q out = v) ∧
    (∀ q out : String,
        (out = "" ∨ llmBraceSlice out = none ∨
          (∃ s, llmBraceSlice out = some s ∧ jsonLoads s = none)) →
        llm_parse_query q out = llmParseFallback q) := by
  refine ⟨?_, ?_, ?_⟩
  · intro q out
    unfold llm_parse_query
    by_cases he : out = ""
    · simp [he]
    · simp only [he, if_false]
      cases hs : llmBraceSlice out with
      | none => simp
      | some s =>
        cases hv : jsonLoads s with
        | none => simp [hv]
        | some v => exact .inr ⟨s, v, rfl, hv, by simp [hv]⟩
  · intro q out s v he hs hv
    unfold llm_parse_query
    simp [he, hs, hv]
  · intro q out h
    unfold llm_parse_query
    rcases h with he | hn | ⟨s, hs, hv⟩
    · simp [he]
    · by_cases he : out = "" <;> simp [he, hn]
    · by_cases he : out = "" <;> simp [he, hs, hv]

/-- Witness for C4: a parseable output is returned as parsed; a
brace-free output and the empty output produce the fallback. -/
theorem llm_parse_query_fallback_contract_witness :
    llm_parse_query "floral shirts" (pyJsonDumps (.obj [("query", .str "floral shirts"),
        ("filters", .obj [("design", .arr [.str "floral"])])])) =
      .obj [("query", .str "floral shirts"), ("filters", .obj [("design", .arr [.str "floral"])])] ∧
    llm_parse_query "floral shirts" "sorry, no structured answer" = llmParseFallback "floral shirts" ∧
    llm_parse_query "floral shirts" "" = llmParseFallback "floral shirts" :=
  ⟨llm_parse_query_fallback_contract.2.1 "floral shirts" _ _ _ (by decide) rfl rfl,
   llm_parse_query_fallback_contract.2.2 "floral shirts" "sorry, no structured answer"
     (Or.inr (Or.inl rfl)),
   llm_parse_query_fallback_contract.2.2 "floral shirts" "" (Or.inl rfl)⟩

/-- Inversion: a successful string-key subscript forces a dict with the
key present. -/
theorem pyGetItemStr_ok_inv {v : JValue} {k : String} {r : JValue}
    (h : pyGetItemStr v k = .ok r) : ∃ kvs, v = .obj kvs ∧ jLookup kvs k = some r := by
  cases v with
  | obj kvs =>
    refine ⟨kvs, rfl, ?_⟩
    unfold pyGetItemStr at h
    cases hl : jLookup kvs k <;> simp_all
  | null => simp [pyGetItemStr] at h
  | bool b => simp [pyGetItemStr] at h
  | num n => simp [pyGetItemStr] at h
  | str s => simp [pyGetItemStr] at h
  | arr xs => simp [pyGetItemStr] at h

/-- Inversion: `v[0]` returning a dict forces a list whose head is that
dict. -/
theorem pySubscriptZero_ok_obj_inv {v : JValue} {ckvs : List (String × JValue)}
    (h : pySubscriptZero v = .ok (.obj ckvs)) :
    ∃ tail, v = .arr (.obj ckvs :: tail) := by
  cases v with
  | arr xs =>
    cases xs with
    | nil => simp [pySubscriptZero] at h
    | cons x tail =>
      refine ⟨tail, ?_⟩
      unfold pySubscriptZero at h
      simp at h
      rw [h]
  | null => simp [pySubscriptZero] at h
  | bool b => simp [pySubscriptZero] at h
  | num n => simp [pySubscriptZero] at h
  | str s =>
    unfold pySubscriptZero at h
    cases hs : s.data <;> simp [hs] at h
  | obj kvs => simp [pySubscriptZero] at h

/-- Case analysis of the gateway's `try` body: it takes the documented
invalid-format return, raises (converted to an error value by the
`except`), or returns the JSON parse of `result.content[0].text` along
the exact nested shape that `specMcpExtract` describes. -/
theorem mcpTryBody_cases (env : JValue) :
    mcpTryBody env = .ok (errObj "Invalid MCP response format") ∨
    (∃ e, mcpTryBody env = .error e) ∨
    (∃ v, mcpTryBody env = .ok v ∧ specMcpExtract env = some v) := by
  unfold mcpTryBody
  split
  · exact .inr (.inl ⟨_, rfl⟩)
  · next c1 hc1 =>
    split
    · split
      · exact .inr (.inl ⟨_, rfl⟩)
      · next r hr =>
        split
        · exact .inr (.inl ⟨_, rfl⟩)
        · next c2 hc2 =>
          split
          · split
            · exact .inr (.inl ⟨_, rfl⟩)
            · next content hcont =>
              split
              · split
                · exact .inr (.inl ⟨_, rfl⟩)
                · next c0 hc0 =>
                  split
                  · exact .inr (.inl ⟨_, rfl⟩)
                  · next c3 hc3 =>
                    split
                    · split
                      · exact .inr (.inl ⟨_, rfl⟩)
                      · next ts hts =>
                        split
                        · next v hv =>
                          refine .inr (.inr ⟨v, rfl, ?_⟩)
                          obtain ⟨kvs, henv, hlk⟩ := pyGetItemStr_ok_inv hr
                          obtain ⟨rkvs, hrobj, hlk2⟩ := pyGetItemStr_ok_inv hcont
                          obtain ⟨ckvs, hcobj, hlk3⟩ := pyGetItemStr_ok_inv hts
                          subst henv hrobj hcobj
                          obtain ⟨tail, hctail⟩ := pySubscriptZero_ok_obj_inv hc0
                          subst hctail
                          simp [specMcpExtract, hlk, hlk2, hlk3, hv]
                        · exact .inr (.inl ⟨_, rfl⟩)
                      · exact .inr (.inl ⟨_, rfl⟩)
                    · exact .inl rfl
              · exact .inl rfl
          · exact .inl rfl
    · exact .inl rfl

/-- Completeness of the unwrapping: whenever the spec-side extraction
rule produces a value, the gateway's `try` body returns exactly it. -/
theorem mcpTryBody_spec_complete {env v : JValue} (h : specMcpExtract env = some v) :
    mcpTryBody env = .ok v := by
  unfold specMcpExtract at h
  cases env with
  | null => simp at h
  | bool b => simp at h
  | num n => simp at h
  | str s => simp at h
  | arr xs => simp at h
  | obj kvs =>
    cases hr : jLookup kvs "result" with
    | none => simp [hr] at h
    | some r =>
      cases r with
      | obj rkvs =>
        cases hc : jLookup rkvs "content" with
        | none => simp [hr, hc] at h
        | some content =>
          cases content with
          | arr xs =>
            cases xs with
            | nil => simp [hr, hc] at h
            | cons c0 tail =>
              cases c0 with
              | obj ckvs =>
                cases ht : jLookup ckvs "text" with
                | none => simp [hr, hc, ht] at h
                | some t =>
                  cases t with
                  | str ts =>
                    have hl : jsonLoads ts = some v := by simp [hr, hc, ht] at h; exact h
                    unfold mcpTryBody
                    simp [pyContains, jHasKey, hr, hc, ht, pyGetItemStr,
                          pySubscriptZero, pyTruthy, hl]
                  | null => simp [hr, hc, ht] at h
                  | bool b => simp [hr, hc, ht] at h
                  | num n => simp [hr, hc, ht] at h
                  | arr ys => simp [hr, hc, ht] at h
                  | obj os => simp [hr, hc, ht] at h
              | null => simp [hr, hc] at h
              | bool b => simp [hr, hc] at h
              | num n => simp [hr, hc] at h
              | str s2 => simp [hr, hc] at h
              | arr ys => simp [hr, hc] at h
          | null => simp [hr, hc] at h
          | bool b => simp [hr, hc] at h
          | num n => simp [hr, hc] at h
          | str s2 => simp [hr, hc] at h
          | obj os => simp [hr, hc] at h
      | null => simp [hr] at h
      | bool b => simp [hr] at h
      | num n => simp [hr] at h
      | str s2 => simp [hr] at h
      | arr ys => simp [hr] at h

/-- A well-formed 303-status response body used to probe the gateway's
status handling. -/
def mcp303Body : String :=
  pyJsonDumps (.obj [("result", .obj [("content",
    .arr [.obj [("text", .str (pyJsonDumps (.obj [("x", .num 1)])))]])])])

/-- Claim C3 counterexample: `raise_for_status()` raises only for
4xx/5xx codes, so a 303 response (non-2xx) carrying a well-formed
envelope is unwrapped and returned as a non-error value — refuting
"any non-2xx status yields an error value". -/
theorem call_mcp_server_non2xx_counterexample :
    ¬ (200 ≤ 303 ∧ 303 ≤ 299) ∧
    call_mcp_server (.resp 303 mcp303Body) = .obj [("x", .num 1)] ∧
    isErrorValue (call_mcp_server (.resp 303 mcp303Body)) = false := by
  exact ⟨by omega, rfl, rfl⟩

/-- Claim C3 (amended): the Tool Gateway is total and never raises:
a transport error yields an `{"error": ...}` value, a 4xx/5xx status
yields an error value, an unparseable body yields an error value, and
on a response whose body carries the well-formed nested envelope the
gateway returns exactly the JSON parse of `result.content[0].text`;
in every remaining case (malformed envelope shape) the result is again
an error value. Statuses outside 400-599 (e.g. 3xx) are not converted
to errors: they proceed to envelope extraction. -/
theorem call_mcp_server_error_contract :
    (∀ m, isErrorValue (call_mcp_server (.err m)) = true) ∧
    (∀ status body, 400 ≤ status → status < 600 →
        isErrorValue (call_mcp_server (.resp status body)) = true) ∧
    (∀ status body, jsonLoads body = none →
        isErrorValue (call_mcp_server (.resp status body)) = true) ∧
    (∀ status body env v, ¬(400 ≤ status ∧ status < 600) → jsonLoads body = some env →
        specMcpExtract env = some v → call_mcp_server (.resp status body) = v) ∧
    (∀ wire, isErrorValue (call_mcp_server wire) = true ∨
        ∃ status body env v, wire = .resp status body ∧ jsonLoads body = some env ∧
          specMcpExtract env = some v ∧ call_mcp_server wire = v) := by
  have herr : ∀ m, isErrorValue (errObj m) = true := by
    intro m
    simp [isErrorValue, errObj, jHasKey, jLookup]
  refine ⟨?_, ?_, ?_, ?_, ?_⟩
  · intro m
    simpa [call_mcp_server] using herr _
  · intro status body h1 h2
    simp only [call_mcp_server]
    rw [if_pos ⟨h1, h2⟩]
    exact herr _
  · intro status body hload
    simp only [call_mcp_server]
    by_cases hs : 400 ≤ status ∧ status < 600
    · rw [if_pos hs]; exact herr _
    · rw [if_neg hs, hload]; exact herr _
  · intro status body env v hs hload hspec
    simp only [call_mcp_server]
    rw [if_neg hs, hload]
    simp only [mcpTryBody_spec_complete hspec]
  · intro wire
    cases wire with
    | err m => exact .inl (by simpa [call_mcp_server] using herr _)
    | resp status body =>
      by_cases hs : 400 ≤ status ∧ status < 600
      · exact .inl (by simp only [call_mcp_server]; rw [if_pos hs]; exact herr _)
      · cases hload : jsonLoads body with
        | none => exact .inl (by simp only [call_mcp_server]; rw [if_neg hs, hload]; exact herr _)
        | some env =>
          rcases mcpTryBody_cases env with hb | ⟨e, hb⟩ | ⟨v, hb, hspec⟩
          · refine .inl ?_
            simp only [call_mcp_server]
            rw [if_neg hs, hload]
            simp only [hb]
            exact herr _
          · refine .inl ?_
            simp only [call_mcp_server]
            rw [if_neg hs, hload]
            simp only [hb]
            exact herr _
          · refine .inr ⟨status, body, env, v, rfl, hload, hspec, ?_⟩
            simp only [call_mcp_server]
            rw [if_neg hs, hload]
            simp only [hb]

/-- Witness for C3 (amended): each guarded clause applied at a concrete
input — a transport failure, a 404, an unparseable body, and a
well-formed 200 response whose inner text parses. -/
theorem call_mcp_server_error_contract_witness :
    isErrorValue (call_mcp_server (.err "connection timed out")) = true ∧
    isErrorValue (call_mcp_server (.resp 404 "irrelevant")) = true ∧
    isErrorValue (call_mcp_server (.resp 200 "not json")) = true ∧
    call_mcp_server (.resp 200 mcp303Body) = .obj [("x", .num 1)] :=
  ⟨call_mcp_server_error_contract.1 "connection timed out",
   call_mcp_server_error_contract.2.1 404 "irrelevant" (by omega) (by omega),
   call_mcp_server_error_contract.2.2.1 200 "not json" rfl,
   call_mcp_server_error_contract.2.2.2.1 200 mcp303Body _ _ (by omega) rfl rfl⟩

/-- Inversion: a successful `extractJson` exhibits the brace-span slice
it parsed. -/
theorem extractJson_some_inv {out : String} {v : JValue} (h : extractJson out = some v) :
    ∃ s, fencedBraceSpan out = some s ∧ jsonLoads s = some v := by
  unfold extractJson at h
  cases hs : fencedBraceSpan out with
  | none => rw [hs] at h; simp at h
  | some s => rw [hs] at h; exact ⟨s, rfl, h⟩

/-- Inversion: a successful `extractJsonObj` is a successful
`extractJson` returning an object. -/
theorem extractJsonObj_some_inv {out : String} {kvs : List (String × JValue)}
    (h : extractJsonObj out = some kvs) : extractJson out = some (.obj kvs) := by
  unfold extractJsonObj at h
  cases he : extractJson out with
  | none => rw [he] at h; simp at h
  | some v =>
    rw [he] at h
    cases v <;> simp at h
    rw [h]

/-- Claim C7: in the Order Status handler, with a usable extraction
whose `found` flag is truthy and which carries an `order_id` value:
if that value does not convert with Python `int()` the handler returns
the terminal error "Invalid order ID format." and issues no tool call;
if it does convert to the integer `n`, the handler invokes exactly one
tool call, `get_order_status` with arguments `{"order_id": n}` on the
order endpoint. -/
theorem order_status_id_must_parse :
    ∀ (extOut : String) (wire : TransportResult) (fmtOut : String)
      (kvs : List (String × JValue)) (v : JValue),
      extractJsonObj extOut = some kvs →
      pyTruthy (jGetD kvs "found" (.bool false)) = true →
      jLookup kvs "order_id" = some v →
      ((∀ e, pyToInt v = .error e →
          order_status_node extOut wire fmtOut =
            (some (orderStatusUpd (errObj "Invalid order ID format.")), [])) ∧
       (∀ n, pyToInt v = .ok n →
          (order_status_node extOut wire fmtOut).2 =
            [⟨ORDER_MCP_URL, "get_order_status", .obj [("order_id", .num n)]⟩])) := by
  intro extOut wire fmtOut kvs v hext hfound hid
  obtain ⟨s, hs, hv⟩ := extractJson_some_inv (extractJsonObj_some_inv hext)
  constructor
  · intro e he
    unfold order_status_node
    rw [hs]
    simp only [hv, hfound, Bool.not_true, Bool.false_eq_true, if_false,
               pyGetItemStr, hid, he]
  · intro n hn
    unfold order_status_node
    rw [hs]
    simp only [hv, hfound, Bool.not_true, Bool.false_eq_true, if_false,
               pyGetItemStr, hid, hn]
    cases extractJson fmtOut <;> simp

/-- Order-status extraction output with a non-numeric id. -/
def osExtractBad : String :=
  pyJsonDumps (.obj [("order_id", .str "abc"), ("found", .bool true)])

/-- Order-status extraction output with a numeric id. -/
def osExtractGood : String :=
  pyJsonDumps (.obj [("order_id", .str "5904242344019"), ("found", .bool true)])

/-- Witness for C7: a non-numeric extracted id yields the terminal
error without a tool call; a numeric id is converted and sent to the
order endpoint. -/
theorem order_status_id_must_parse_witness :
    order_status_node osExtractBad (.err "unreachable") "" =
      (some (orderStatusUpd (errObj "Invalid order ID format.")), []) ∧
    (order_status_node osExtractGood (.err "unreachable") "").2 =
      [⟨ORDER_MCP_URL, "get_order_status", .obj [("order_id", .num 5904242344019)]⟩] :=
  ⟨(order_status_id_must_parse osExtractBad (.err "unreachable") ""
      [("order_id", .str "abc"), ("found", .bool true)] (.str "abc") rfl rfl rfl).1 _ rfl,
   (order_status_id_must_parse osExtractGood (.err "unreachable") ""
      [("order_id", .str "5904242344019"), ("found", .bool true)] (.str "5904242344019")
      rfl rfl rfl).2 5904242344019 rfl⟩

/-- Claim C8: in the Order Creation handler, whenever the extraction
reports missing required fields (`needs_more_info` truthy — also the
`get` default when the key is absent), the handler returns the terminal
"Missing information..." error envelope and the order-creation tool is
never invoked; when the fields are present (flag falsy, integer-
convertible `variant_id`, `email` present) the single tool call nests
the line items and the customer email under an `"order"` object marked
`"test": true` with `"financial_status": "paid"`. -/
theorem order_creation_missing_fields :
    (∀ (extOut : String) (wire : TransportResult) (fmtOut : String)
       (kvs : List (String × JValue)),
       extractJsonObj extOut = some kvs →
       pyTruthy (jGetD kvs "needs_more_info" (.bool true)) = true →
       order_creation_node extOut wire fmtOut =
         (some (orderResultUpd (errObj
           "Missing information. Please provide variant ID and email address to create an order.")),
          [])) ∧
    (∀ (extOut : String) (wire : TransportResult) (fmtOut : String)
       (kvs : List (String × JValue)) (vv em : JValue) (n : Int),
       extractJsonObj extOut = some kvs →
       pyTruthy (jGetD kvs "needs_more_info" (.bool true)) = false →
       jLookup kvs "variant_id" = some vv →
       pyToInt vv = .ok n →
       jLookup kvs "email" = some em →
       (order_creation_node extOut wire fmtOut).2 =
         [⟨ORDER_MCP_URL, "create_order", .obj [("order", .obj [
             ("line_items", .arr [.obj [("variant_id", .num n),
                                        ("quantity", jGetD kvs "quantity" (.num 1))]]),
             ("customer", .obj [("email", em)]),
             ("financial_status", .str "paid"),
             ("test", .bool true)])]⟩]) := by
  constructor
  · intro extOut wire fmtOut kvs hext hflag
    obtain ⟨s, hs, hv⟩ := extractJson_some_inv (extractJsonObj_some_inv hext)
    unfold order_creation_node
    rw [hs]
    simp only [hv, hflag, if_true]
  · intro extOut wire fmtOut kvs vv em n hext hflag hvid hn hem
    obtain ⟨s, hs, hv⟩ := extractJson_some_inv (extractJsonObj_some_inv hext)
    unfold order_creation_node
    rw [hs]
    simp only [hv, hflag, Bool.false_eq_true, if_false, pyGetItemStr, hvid, hn, hem]
    cases hf : extractJson fmtOut <;>
      simp [hf, Bind.bind, Except.bind, hn, pure, Except.pure]

/-- Order-creation extraction output with all required fields. -/
def ocExtractFull : String :=
  pyJsonDumps (.obj [("variant_id", .str "42910880890963"),
                     ("email", .str "test@example.com"),
                     ("quantity", .num 1),
                     ("needs_more_info", .bool false)])

/-- Order-creation extraction output reporting missing fields. -/
def ocExtractMissing : String :=
  pyJsonDumps (.obj [("variant_id", .null), ("needs_more_info", .bool true)])

/-- Witness for C8: a missing-fields extraction returns the terminal
error with no tool call; a complete extraction produces the nested
test-marked order payload. -/
theorem order_creation_missing_fields_witness :
    order_creation_node ocExtractMissing (.err "unreachable") "" =
      (some (orderResultUpd (errObj
        "Missing information. Please provide variant ID and email address to create an order.")),
       []) ∧
    (order_creation_node ocExtractFull (.err "unreachable") "").2 =
      [⟨ORDER_MCP_URL, "create_order", .obj [("order", .obj [
          ("line_items", .arr [.obj [("variant_id", .num 42910880890963),
                                     ("quantity", .num 1)]]),
          ("customer", .obj [("email", .str "test@example.com")]),
          ("financial_status", .str "paid"),
          ("test", .bool true)])]⟩] := by
  constructor
  · exact order_creation_missing_fields.1 ocExtractMissing (.err "unreachable") ""
      [("variant_id", .null), ("needs_more_info", .bool true)] rfl rfl
  · have h := order_creation_missing_fields.2 ocExtractFull (.err "unreachable") ""
      [("variant_id", .str "42910880890963"), ("email", .str "test@example.com"),
       ("quantity", .num 1), ("needs_more_info", .bool false)]
      (.str "42910880890963") (.str "test@example.com") 42910880890963
      rfl rfl rfl rfl rfl
    simpa using h

/-- The Product Search node's filter normalization,
`parsed.get("filters", {}) or {}`. -/
def normFilters (pkvs : List (String × JValue)) : JValue :=
  let filters0 := jGetD pkvs "filters" (.obj [])
  if pyTruthy filters0 then filters0 else .obj []

/-- A catalog response value carrying a `products` list plus a further
key, so the raw product list and the gateway's full value differ. -/
def psMcpResultExtra : JValue :=
  .obj [("products", .arr [.obj [("id", .num 1)]]), ("available_filters", .arr [])]

/-- A transport outcome making the Tool Gateway return
`psMcpResultExtra`. -/
def psWireExtra : TransportResult :=
  .resp 200 (pyJsonDumps (.obj [("result", .obj [("content",
    .arr [.obj [("text", .str (pyJsonDumps psMcpResultExtra))]])])]))

/-- Claim C5 counterexample: the Product Search handler does not obey
the bit-for-bit raw-passthrough the claim extends to it. When its
filter-LLM output is unparseable, the stored payload is
`{"products": <raw product list>}` — here differing from the value the
Tool Gateway returned, which carries a further key. -/
theorem product_search_no_raw_passthrough_counterexample :
    call_mcp_server psWireExtra = psMcpResultExtra ∧
    (product_search_node "floral shirts" "" psWireExtra "not json").1 =
      some (productsUpd (.obj [("products", .arr [.obj [("id", .num 1)]])])) ∧
    (.obj [("products", .arr [.obj [("id", .num 1)]])] : JValue) ≠ psMcpResultExtra := by
  refine ⟨rfl, rfl, ?_⟩
  intro h
  rw [psMcpResultExtra] at h
  injection h with h1
  simp at h1

/-- Claim C5 (amended): whenever the final LLM reformat pass produces
text from which no JSON object can be parsed, the Order Creation and
Order Status handlers store the raw tool result — exactly the value the
Tool Gateway returned — as the result payload (and serialize exactly it
as `final_response`) rather than erroring; the Product Search handler,
on the same failure, stores `{"products": <the unfiltered raw product
list>}` — the gateway value's `products` entry rewrapped, not the
gateway's full response value. -/
theorem raw_passthrough_on_format_failure :
    (∀ (extOut : String) (wire : TransportResult) (fmtOut : String)
       (kvs : List (String × JValue)) (vv em : JValue) (n : Int),
       extractJsonObj extOut = some kvs →
       pyTruthy (jGetD kvs "needs_more_info" (.bool true)) = false →
       jLookup kvs "variant_id" = some vv →
       pyToInt vv = .ok n →
       jLookup kvs "email" = some em →
       extractJson fmtOut = none →
       (order_creation_node extOut wire fmtOut).1 =
         some (orderResultUpd (call_mcp_server wire))) ∧
    (∀ (extOut : String) (wire : TransportResult) (fmtOut : String)
       (kvs : List (String × JValue)) (v : JValue) (n : Int),
       extractJsonObj extOut = some kvs →
       pyTruthy (jGetD kvs "found" (.bool false)) = true →
       jLookup kvs "order_id" = some v →
       pyToInt v = .ok n →
       extractJson fmtOut = none →
       (order_status_node extOut wire fmtOut).1 =
         some (orderStatusUpd (call_mcp_server wire))) ∧
    (∀ (msg psParseOut : String) (wire : TransportResult) (fmtOut : String)
       (pkvs fkvs mkvs : List (String × JValue)) (prods : JValue),
       llm_parse_query msg psParseOut = .obj pkvs →
       normFilters pkvs = .obj fkvs →
       call_mcp_server wire = .obj mkvs →
       jLookup mkvs "products" = some prods →
       pyTruthy prods = true →
       extractJson fmtOut = none →
       (product_search_node msg psParseOut wire fmtOut).1 =
         some (productsUpd (.obj [("products", prods)]))) := by
  refine ⟨?_, ?_, ?_⟩
  · intro extOut wire fmtOut kvs vv em n hext hflag hvid hn hem hf
    obtain ⟨s, hs, hv⟩ := extractJson_some_inv (extractJsonObj_some_inv hext)
    unfold order_creation_node
    rw [hs]
    simp only [hv, hflag, Bool.false_eq_true, if_false, pyGetItemStr, hvid, hn, hem]
    simp [hf, Bind.bind, Except.bind, hn, pure, Except.pure]
  · intro extOut wire fmtOut kvs v n hext hfound hid hn hf
    obtain ⟨s, hs, hv⟩ := extractJson_some_inv (extractJsonObj_some_inv hext)
    unfold order_status_node
    rw [hs]
    simp only [hv, hfound, Bool.not_true, Bool.false_eq_true, if_false,
               pyGetItemStr, hid, hn, hf]
  · intro msg psParseOut wire fmtOut pkvs fkvs mkvs prods hparse hfil hmcp hprod htr hf
    unfold product_search_node
    rw [hparse]
    dsimp only
    unfold normFilters at hfil
    dsimp only at hfil
    rw [hfil]
    dsimp only
    rw [hmcp]
    have hk : jHasKey mkvs "products" = true := by simp [jHasKey, hprod]
    have hg : jGetD mkvs "products" .null = prods := by simp [jGetD, hprod]
    simp only [hk, if_true, hg, htr, Bool.not_true, Bool.false_eq_true, if_false, hf]

/-- Witness for C5 (amended): with an unparseable reformat output, both
order handlers return the gateway's value — here the gateway's own
transport error value — unmodified as the payload, and the product
handler returns the rewrapped raw product list. -/
theorem raw_passthrough_on_format_failure_witness :
    (order_creation_node ocExtractFull (.err "down") "sorry").1 =
      some (orderResultUpd (call_mcp_server (.err "down"))) ∧
    (order_status_node osExtractGood (.err "down") "sorry").1 =
      some (orderStatusUpd (call_mcp_server (.err "down"))) ∧
    (product_search_node "floral shirts" "" psWireExtra "not json").1 =
      some (productsUpd (.obj [("products", .arr [.obj [("id", .num 1)]])])) :=
  ⟨raw_passthrough_on_format_failure.1 ocExtractFull (.err "down") "sorry"
     [("variant_id", .str "42910880890963"), ("email", .str "test@example.com"),
      ("quantity", .num 1), ("needs_more_info", .bool false)]
     (.str "42910880890963") (.str "test@example.com") 42910880890963
     rfl rfl rfl rfl rfl rfl,
   raw_passthrough_on_format_failure.2.1 osExtractGood (.err "down") "sorry"
     [("order_id", .str "5904242344019"), ("found", .bool true)]
     (.str "5904242344019") 5904242344019 rfl rfl rfl rfl rfl,
   raw_passthrough_on_format_failure.2.2 "floral shirts" "" psWireExtra "not json"
     [("query", .str "floral shirts"), ("filters", .obj [])] []
     [("products", .arr [.obj [("id", .num 1)]]), ("available_filters", .arr [])]
     (.arr [.obj [("id", .num 1)]]) rfl rfl rfl rfl rfl rfl⟩

/-- Claim C6 counterexample: the static topic classifier's default
label, produced e.g. for the keyword-free message "hello", is the
literal string "general" — not "generic" as the claim lists the fourth
topic. -/
theorem info_fallback_topic_counterexample :
    (infoFallbackTopicAnswer "hello").1 = "general" ∧
    (info_search_node "hello" none none none (.raises "x") "").1 =
      some (infoResultUpd (.obj [("info", .obj [
        ("topic", .str "general"),
        ("answer", .str generic_canned),
        ("note", .str ("RAG not available; showing fallback information. Error: Google API key not found (GOOGLE_API_KEY or GEMINI_API_KEY)"))])])) ∧
    ("general" ≠ "return_policy" ∧ "general" ≠ "contact_details" ∧
     "general" ≠ "current_offers" ∧ "general" ≠ "generic") := by
  exact ⟨rfl, rfl, by decide, by decide, by decide, by decide⟩

/-- Claim C6 (amended): on any failure in the RAG pipeline (missing
Google/Pinecone credential, missing index name, empty index via the
probe, or any retrieval exception) the Info Search handler returns —
via a total fallback path that issues no tool call — the canned-answer
payload of the static topic classifier, whose topic is one of
return_policy / contact_details / current_offers / "general" (the
code's default label, not "generic"), with a note that starts with
"RAG not available" and names the failure reason; in particular
"What is your return policy?" without a configured vector index yields
topic "return_policy". -/
theorem info_search_static_fallback :
    (∀ (userQ : String) (gkey pkey pindex : Option String) (rag : RagOutcome)
       (fmtOut e : String),
       ragAttempt gkey pkey pindex rag = .error e →
       info_search_node userQ gkey pkey pindex rag fmtOut =
         (some (infoResultUpd (.obj [("info", .obj [
            ("topic", .str (infoFallbackTopicAnswer userQ).1),
            ("answer", .str (infoFallbackTopicAnswer userQ).2),
            ("note", .str ("RAG not available; showing fallback information. Error: " ++ e))])])),
          []) ∧
       ((infoFallbackTopicAnswer userQ).1 = "return_policy" ∨
        (infoFallbackTopicAnswer userQ).1 = "contact_details" ∨
        (infoFallbackTopicAnswer userQ).1 = "current_offers" ∨
        (infoFallbackTopicAnswer userQ).1 = "general") ∧
       (∃ rest, ("RAG not available; showing fallback information. Error: " ++ e) =
          "RAG not available" ++ rest)) ∧
    (∀ (gkey pkey : Option String) (rag : RagOutcome) (fmtOut : String),
       envFalsy gkey = false → envFalsy pkey = false →
       (info_search_node "What is your return policy?" gkey pkey none rag fmtOut).1 =
         some (infoResultUpd (.obj [("info", .obj [
            ("topic", .str "return_policy"),
            ("answer", .str return_policy_canned),
            ("note", .str ("RAG not available; showing fallback information. Error: Pinecone index not found (PINECONE_INDEX)"))])]))) := by
  constructor
  · intro userQ gkey pkey pindex rag fmtOut e hfail
    refine ⟨?_, ?_, ?_⟩
    · unfold info_search_node
      rw [hfail]
    · unfold infoFallbackTopicAnswer
      by_cases h1 : containsAnyKw (pyLower userQ) ["return", "refund", "exchange", "policy"] <;>
        by_cases h2 : containsAnyKw (pyLower userQ)
            ["contact", "phone", "email", "support", "address", "reach"] <;>
          by_cases h3 : containsAnyKw (pyLower userQ)
              ["offer", "discount", "sale", "promotion", "deal", "coupon"] <;>
            simp [h1, h2, h3]
    · refine ⟨"; showing fallback information. Error: " ++ e, ?_⟩
      rw [← String.append_assoc]
      rfl
  · intro gkey pkey rag fmtOut hg hp
    unfold info_search_node ragAttempt
    rw [hg, hp]
    simp only [Bool.false_eq_true, if_false, envFalsy]
    rfl

/-- Witness for C6: a concrete failing configuration — no Pinecone
index — with concrete non-empty credentials, and a concrete failure of
`ragAttempt`. -/
theorem info_search_static_fallback_witness :
    info_search_node "any offers today?" (some "g") (some "p") none (.raises "x") "" =
      (some (infoResultUpd (.obj [("info", .obj [
         ("topic", .str (infoFallbackTopicAnswer "any offers today?").1),
         ("answer", .str (infoFallbackTopicAnswer "any offers today?").2),
         ("note", .str ("RAG not available; showing fallback information. Error: Pinecone index not found (PINECONE_INDEX)"))])])),
       []) ∧
    (info_search_node "What is your return policy?" (some "g") (some "p") none
        (.raises "x") "").1 =
      some (infoResultUpd (.obj [("info", .obj [
         ("topic", .str "return_policy"),
         ("answer", .str return_policy_canned),
         ("note", .str ("RAG not available; showing fallback information. Error: Pinecone index not found (PINECONE_INDEX)"))])])) :=
  ⟨(info_search_static_fallback.1 "any offers today?" (some "g") (some "p") none
      (.raises "x") "" "Pinecone index not found (PINECONE_INDEX)" rfl).1,
   info_search_static_fallback.2 (some "g") (some "p") (.raises "x") "" rfl rfl⟩

/-- Shape of the Order Creation node's update: nothing (the `None`
fallthrough) or an `order_result` write. -/
theorem order_creation_node_shape (a : String) (w : TransportResult) (f : String) :
    (order_creation_node a w f).1 = none ∨
    ∃ v, (order_creation_node a w f).1 = some (orderResultUpd v) := by
  unfold order_creation_node
  repeat' split
  all_goals first
    | exact .inl rfl
    | exact .inr ⟨_, rfl⟩

/-- Shape of the Order Status node's update: nothing or an
`order_status` write. -/
theorem order_status_node_shape (a : String) (w : TransportResult) (f : String) :
    (order_status_node a w f).1 = none ∨
    ∃ v, (order_status_node a w f).1 = some (orderStatusUpd v) := by
  unfold order_status_node
  repeat' split
  all_goals first
    | exact .inl rfl
    | exact .inr ⟨_, rfl⟩

/-- Shape of the Product Search node's update: always a `products`
write. -/
theorem product_search_node_shape (m a : String) (w : TransportResult) (f : String) :
    ∃ v, (product_search_node m a w f).1 = some (productsUpd v) := by
  unfold product_search_node
  dsimp only
  repeat' split
  all_goals exact ⟨_, rfl⟩

/-- Shape of the Info Search node's update: always an `info_result`
write. -/
theorem info_search_node_shape (m : String) (g p i : Option String)
    (r : RagOutcome) (f : String) :
    ∃ v, (info_search_node m g p i r f).1 = some (infoResultUpd v) := by
  unfold info_search_node
  dsimp only
  repeat' split
  all_goals exact ⟨_, rfl⟩

/-- How many of the four result fields are populated. -/
def countResults (st : FinalState) : Nat :=
  (if st.products.isSome then 1 else 0) + (if st.order_result.isSome then 1 else 0) +
  (if st.order_status.isSome then 1 else 0) + (if st.info_result.isSome then 1 else 0)

/-- External inputs in which every Gemini call returns the empty string
(the gateway's documented failure value), every transport fails, and no
RAG credential is configured. -/
def extAllDown : ExtIn :=
  ⟨"", "", "", .err "connection refused", "", "", .err "connection refused",
   "", "", .err "connection refused", none, none, none, .raises "unreachable", ""⟩

/-- Every route label `route_by_intent` can produce. -/
theorem route_by_intent_cases (v : JValue) :
    route_by_intent v = "order_creation" ∨ route_by_intent v = "order_status" ∨
    route_by_intent v = "info_search" ∨ route_by_intent v = "product_search" := by
  unfold route_by_intent
  repeat' split
  all_goals simp

/-- Number of populated result fields that do not belong to the handler
the final intent routes to (the claim requires this to be zero). -/
def offRouteCount (st : FinalState) : Nat :=
  (if st.products.isSome ∧ route_by_intent st.intent ≠ "product_search" then 1 else 0) +
  (if st.order_result.isSome ∧ route_by_intent st.intent ≠ "order_creation" then 1 else 0) +
  (if st.order_status.isSome ∧ route_by_intent st.intent ≠ "order_status" then 1 else 0) +
  (if st.info_result.isSome ∧ route_by_intent st.intent ≠ "info_search" then 1 else 0)

/-- Claim C9 (code bug): the "exactly one result field populated"
invariant fails — with the order-creation intent ("buy shoes" under
fallback classification) and an extraction-LLM output containing no
JSON object span, the order handler's `None` fallthrough writes
nothing, leaving all four result fields empty. The rest of the claim
holds: at most one field is ever populated, and a populated field is
always the one `route_by_intent` selects for the run's intent
(`offRouteCount = 0`): each handler writes only its own field. -/
theorem result_field_population_bug :
    ((runWorkflow extAllDown "buy shoes").1.intent = .str "order_creation" ∧
     (runWorkflow extAllDown "buy shoes").1.products = none ∧
     (runWorkflow extAllDown "buy shoes").1.order_result = none ∧
     (runWorkflow extAllDown "buy shoes").1.order_status = none ∧
     (runWorkflow extAllDown "buy shoes").1.info_result = none ∧
     countResults (runWorkflow extAllDown "buy shoes").1 = 0) ∧
    (∀ (ext : ExtIn) (msg : String),
       countResults (runWorkflow ext msg).1 ≤ 1 ∧
       offRouteCount (runWorkflow ext msg).1 = 0) := by
  refine ⟨⟨rfl, rfl, rfl, rfl, rfl, rfl⟩, ?_⟩
  intro ext msg
  unfold runWorkflow
  dsimp only
  split
  · next hroute =>
    rcases order_creation_node_shape ext.ocExtractOut ext.ocWire ext.ocFormatOut with
      h | ⟨v, h⟩ <;>
      rw [h] <;>
      simp_all [applyUpd, intentUpd, updField, countResults, offRouteCount, orderResultUpd]
  · next hroute =>
    rcases order_status_node_shape ext.osExtractOut ext.osWire ext.osFormatOut with
      h | ⟨v, h⟩ <;>
      rw [h] <;>
      simp_all [applyUpd, intentUpd, updField, countResults, offRouteCount, orderStatusUpd]
  · next hroute =>
    rcases info_search_node_shape msg ext.gkey ext.pkey ext.pindex ext.rag ext.ragFormatOut
      with ⟨v, h⟩
    rw [h]
    simp_all [applyUpd, intentUpd, updField, countResults, offRouteCount, infoResultUpd]
  · next h1 h2 h3 =>
    rcases product_search_node_shape msg ext.psParseOut ext.psWire ext.psFilterOut with ⟨v, h⟩
    rw [h]
    have hps := route_by_intent_cases (analyze_user_intent msg ext.intentOut).1
    simp_all [applyUpd, intentUpd, updField, countResults, offRouteCount, productsUpd]

/-- Claim C1 (code bug eval): with the user message "buy shoes"
(fallback-classified as order_creation) and every LLM call returning
the empty string — the Language-Model Gateway's documented failure
value — `process_user_message` of `langgraph_agent_workflow.py` returns
an envelope whose `final_response` is the empty string, which is not
JSON-parseable, and no `{intent: "error"}` envelope is synthesized:
the order handler's `None` fallthrough leaves `final_response` unset
and the orchestrator has no exception-conversion path. -/
theorem orchestrator_unparseable_final_response :
    (process_user_message extAllDown "buy shoes").intent = .str "order_creation" ∧
    (process_user_message extAllDown "buy shoes").final_response = "" ∧
    jsonLoads "" = none :=
  ⟨rfl, rfl, rfl⟩

/-- Claim C10: `process_user_message` post-processes `final_response`
exactly as claimed — the returned string is `augmentFinal` of the
workflow's `final_response` (missing/empty mapped to `""`); when the
string parses as a JSON object without a `user_intent` key, the result
is that object re-serialized with `user_intent` appended, set to the
classified intent; when a `user_intent` key is already present the
object is re-serialized with the existing value kept; when the string
is empty or does not parse as a JSON object it is returned unchanged. -/
theorem final_response_augmentation :
    (∀ (ext : ExtIn) (msg : String),
        (process_user_message ext msg).final_response =
          augmentFinal (((runWorkflow ext msg).1.final_response).getD "")
            ((runWorkflow ext msg).1.intent)) ∧
    (∀ (fr : String) (it : JValue) (kvs : List (String × JValue)),
        jsonLoads fr = some (.obj kvs) → jHasKey kvs "user_intent" = false →
        augmentFinal fr it = pyJsonDumps (.obj (kvs ++ [("user_intent", it)]))) ∧
    (∀ (fr : String) (it : JValue) (kvs : List (String × JValue)),
        jsonLoads fr = some (.obj kvs) → jHasKey kvs "user_intent" = true →
        augmentFinal fr it = pyJsonDumps (.obj kvs)) ∧
    (∀ (fr : String) (it : JValue),
        (∀ kvs, jsonLoads fr ≠ some (.obj kvs)) → augmentFinal fr it = fr) ∧
    (∀ it : JValue, augmentFinal "" it = "") := by
  refine ⟨fun ext msg => rfl, ?_, ?_, ?_, fun it => rfl⟩
  · intro fr it kvs hl hk
    unfold augmentFinal
    rw [hl]
    simp [pySetdefault, hk]
  · intro fr it kvs hl hk
    unfold augmentFinal
    rw [hl]
    simp [pySetdefault, hk]
  · intro fr it hne
    unfold augmentFinal
    cases hl : jsonLoads fr with
    | none => rfl
    | some v =>
      cases v with
      | obj kvs => exact absurd hl (hne kvs)
      | null => rfl
      | bool b => rfl
      | num n => rfl
      | str s => rfl
      | arr xs => rfl

/-- Witness for C10: a fresh object gains `user_intent`, an object that
already carries `user_intent` keeps its value, and a non-JSON string
passes through unchanged. -/
theorem final_response_augmentation_witness :
    augmentFinal (pyJsonDumps (.obj [("a", .num 1)])) (.str "product_search") =
      pyJsonDumps (.obj [("a", .num 1), ("user_intent", .str "product_search")]) ∧
    augmentFinal (pyJsonDumps (.obj [("user_intent", .str "kept")])) (.str "product_search") =
      pyJsonDumps (.obj [("user_intent", .str "kept")]) ∧
    augmentFinal "plain text" (.str "product_search") = "plain text" :=
  ⟨final_response_augmentation.2.1 _ (.str "product_search") [("a", .num 1)] rfl rfl,
   final_response_augmentation.2.2.1 _ (.str "product_search") [("user_intent", .str "kept")]
     rfl rfl,
   final_response_augmentation.2.2.2.1 "plain text" (.str "product_search")
     (fun kvs h => by rw [show jsonLoads "plain text" = none from rfl] at h; cases h)⟩
